import Mathlib

/-!
Verification of the provider-aggregation engine in
src/enhanced-ip-geolocation.js (class EnhancedIPGeolocation).

Shallow-embedding conventions:
* JavaScript numbers are modelled as exact rationals (ℚ); the claims
  checked here concern the symbolic arithmetic of the code, not binary
  floating-point rounding.
* Timestamps (Date.now()) are naturals counting milliseconds.
* A JavaScript object used as a string-keyed map (results.providers, the
  counts object in getMostCommon, the Map used as cache) is modelled as an
  association list in key-insertion order; the keys that arise here
  (provider identifiers, place names) are not array-index strings, so
  insertion order is the object's enumeration order.
* JavaScript truthiness on optional fields: a string field is truthy when
  present and nonempty; a numeric field is truthy when present and nonzero.
* Fallible operations return Except String, carrying the thrown message.
-/

namespace IPGeo

/-! ### IP-address validation (isValidIP, lines 522-526)

The source tests two anchored regular expressions:
  ipv4: ^(?:(?:25[0-5]|2[0-4][0-9]|[01]?[0-9][0-9]?)\.){3}(?:25[0-5]|...)$
  ipv6: ^(?:[0-9a-fA-F]{1,4}:){7}[0-9a-fA-F]{1,4}$
A full match of the ipv4 regex is exactly: splitting on '.' yields four
parts, each a 1-3 digit run satisfying the octet alternatives; a full
match of the ipv6 regex is exactly: splitting on ':' yields eight parts,
each a run of 1-4 hex digits.  We embed the regexes through an explicit
split on the delimiter character. -/

/-- Split a character list on a delimiter.  Mirrors how an anchored
regex of the form (part delim){k} part decomposes its subject: the result
always has (number of delimiters + 1) parts and the delimiter occurs in
no part. -/
def splitOnChar (c : Char) : List Char → List (List Char)
  | [] => [[]]
  | x :: xs =>
    match splitOnChar c xs with
    | [] => [[]]
    | p :: ps => if x = c then [] :: p :: ps else (x :: p) :: ps

/-- The length-and-bound shape of the octet alternation, assuming digits:
1 or 2 digits freely, or 3 digits whose leading digits obey the bounds of
25[0-5]|2[0-4][0-9]|[01][0-9][0-9]. -/
def octetShape : List Char → Bool
  | [_] => true
  | [_, _] => true
  | [a, b, c] => a = '0' || a = '1' || (a = '2' && (b ≤ '4' || (b = '5' && c ≤ '5')))
  | _ => false

/-- The octet alternation 25[0-5]|2[0-4][0-9]|[01]?[0-9][0-9]? as a
predicate on one dot-separated part. -/
def validOctet (l : List Char) : Bool :=
  l.all Char.isDigit && octetShape l

def isHexDigit (c : Char) : Bool :=
  c.isDigit || ('a' ≤ c && c ≤ 'f') || ('A' ≤ c && c ≤ 'F')

/-- One colon-separated ipv6 group: [0-9a-fA-F]{1,4}. -/
def validHexGroup (l : List Char) : Bool :=
  decide (1 ≤ l.length) && decide (l.length ≤ 4) && l.all isHexDigit

/-- A full ipv4 match is exactly four dot-separated parts, each a valid
octet. -/
def checkFourOctets : List (List Char) → Bool
  | [a, b, c, d] => validOctet a && validOctet b && validOctet c && validOctet d
  | _ => false

def isValidIPv4 (s : List Char) : Bool :=
  checkFourOctets (splitOnChar '.' s)

def isValidIPv6 (s : List Char) : Bool :=
  let parts := splitOnChar ':' s
  decide (parts.length = 8) && parts.all validHexGroup

/-- isValidIP (lines 522-526): ipv4Regex.test(ip) || ipv6Regex.test(ip). -/
def isValidIP (ip : String) : Bool :=
  isValidIPv4 ip.data || isValidIPv6 ip.data

/-! ### Aggregation utilities (lines 528-539) -/

/-- Keys of the counts object built by getMostCommon: the distinct values
in first-occurrence order (JavaScript object-key insertion order for
non-index string keys). -/
def keysInOrder (l : List String) : List String :=
  l.foldl (fun ks x => if x ∈ ks then ks else ks ++ [x]) []

/-- getMostCommon (lines 528-533):
  if (!array || array.length === 0) return null;
  const counts = \x7b\x7d;
  array.forEach(item => counts[item] = (counts[item] || 0) + 1);
  return Object.keys(counts).reduce((a, b) => counts[a] > counts[b] ? a : b);
The reduce keeps the accumulator only on a strictly greater count, so a
tie moves to the later key. -/
def getMostCommon (l : List String) : Option String :=
  match keysInOrder l with
  | [] => none
  | k :: ks => some (ks.foldl (fun a b => if l.count a > l.count b then a else b) k)

/-- getAverage (lines 535-539):
  if (!array || array.length === 0) return null;
  const sum = array.reduce((a, b) => a + b, 0);
  return sum / array.length; -/
def getAverage (l : List ℚ) : Option ℚ :=
  if l.isEmpty then none
  else some ((l.foldl (fun a b => a + b) 0) / (l.length : ℚ))

/-! ### Provider records and the aggregator (lines 375-428) -/

structure ServiceInfo where
  port : Nat
  protocol : String
  service : String
  source : String
deriving Repr, DecidableEq

/-- The common normalized record an adapter produces (the data objects
built by fetchFromIPAPI / fetchFromIPInfo / ...).  Fields a provider does
not supply are none / false / []. -/
structure ProviderData where
  country : Option String := none
  region : Option String := none
  city : Option String := none
  latitude : Option ℚ := none
  longitude : Option ℚ := none
  timezone : Option String := none
  isp : Option String := none
  org : Option String := none
  asn : Option String := none
  isProxy : Bool := false
  isHosting : Bool := false
  vulnerabilities : List String := []
  services : List ServiceInfo := []
  ports : List Nat := []
deriving Repr, DecidableEq

/-- The truthiness guard `if (provider.field) values.xs.push(provider.field)`
for a string-valued field: pushes only a present, nonempty value. -/
def pushTruthyS (acc : List String) : Option String → List String
  | some s => if s = "" then acc else acc ++ [s]
  | none => acc

/-- The same guard for a numeric field: a present value of 0 is falsy in
JavaScript and is not pushed. -/
def pushTruthyQ (acc : List ℚ) : Option ℚ → List ℚ
  | some x => if x = 0 then acc else acc ++ [x]
  | none => acc

/-- One field's value list collected over Object.values(providers) in
insertion order (lines 398-409; the source fills all nine lists in one
pass, which collects each list exactly as this per-field pass does). -/
def collectS (f : ProviderData → Option String) (provs : List (String × ProviderData)) :
    List String :=
  provs.foldl (fun acc p => pushTruthyS acc (f p.2)) []

def collectQ (f : ProviderData → Option ℚ) (provs : List (String × ProviderData)) :
    List ℚ :=
  provs.foldl (fun acc p => pushTruthyQ acc (f p.2)) []

structure AggregatedLocation where
  country : Option String
  region : Option String
  city : Option String
  latitude : Option ℚ
  longitude : Option ℚ
  timezone : Option String
deriving Repr, DecidableEq

structure AggregatedNetwork where
  isp : Option String
  org : Option String
  asn : Option String
deriving Repr, DecidableEq

/-- aggregated.location and aggregated.network (lines 412-425).  The
source also initializes organization and security sub-objects that are
never assigned to; they stay empty and are omitted here. -/
structure Aggregated where
  location : AggregatedLocation
  network : AggregatedNetwork
deriving Repr, DecidableEq

/-- aggregateProviderData (lines 378-428). -/
def aggregateProviderData (provs : List (String × ProviderData)) : Aggregated :=
  { location :=
      { country := getMostCommon (collectS (fun d => d.country) provs)
        region := getMostCommon (collectS (fun d => d.region) provs)
        city := getMostCommon (collectS (fun d => d.city) provs)
        latitude := getAverage (collectQ (fun d => d.latitude) provs)
        longitude := getAverage (collectQ (fun d => d.longitude) provs)
        timezone := getMostCommon (collectS (fun d => d.timezone) provs) }
    network :=
      { isp := getMostCommon (collectS (fun d => d.isp) provs)
        org := getMostCommon (collectS (fun d => d.org) provs)
        asn := getMostCommon (collectS (fun d => d.asn) provs) } }

/-! ### Confidence scoring (lines 433-452) -/

structure Confidence where
  overall : ℚ
  location : ℚ
  network : ℚ
  security : ℚ
deriving Repr, DecidableEq

/-- calculateConfidenceScores (lines 433-452).  With zero providers the
source returns the empty object (no overall/location/network/security
fields at all), modelled as none; otherwise
  overall = Math.min(providerCount * 0.25, 1.0),
  location = network = overall, security = overall * 0.8. -/
def calculateConfidenceScores (provs : List (String × ProviderData)) : Option Confidence :=
  let providerCount := provs.length
  if providerCount = 0 then none
  else
    let overall : ℚ := min ((providerCount : ℚ) * (1 / 4)) 1
    some { overall := overall, location := overall, network := overall,
           security := overall * (4 / 5) }

/-! ### Threat and service derivation (lines 457-517) -/

structure Threat where
  threatType : String
  severity : String
  description : String
  details : List String := []
  source : String
deriving Repr, DecidableEq

/-- analyzeThreatData (lines 457-491): per provider, in order, a proxy
flag, then a hosting flag, then a vulnerabilities entry. -/
def analyzeThreatData (provs : List (String × ProviderData)) : List Threat :=
  provs.foldl
    (fun acc p =>
      let d := p.2
      let acc := if d.isProxy then
          acc ++ [{ threatType := "proxy", severity := "medium",
                    description := "IP appears to be a proxy server",
                    source := "provider_detection" }]
        else acc
      let acc := if d.isHosting then
          acc ++ [{ threatType := "hosting", severity := "low",
                    description := "IP belongs to a hosting provider",
                    source := "provider_detection" }]
        else acc
      if d.vulnerabilities.length > 0 then
        acc ++ [{ threatType := "vulnerabilities", severity := "high",
                  description := toString d.vulnerabilities.length ++
                    " known vulnerabilities detected",
                  details := d.vulnerabilities, source := "shodan" }]
      else acc)
    []

/-- extractServiceInfo (lines 496-517): flatten provider service lists and
turn bare ports into unknown-service entries. -/
def extractServiceInfo (provs : List (String × ProviderData)) : List ServiceInfo :=
  provs.foldl
    (fun acc p =>
      let acc := acc ++ p.2.services
      acc ++ p.2.ports.map (fun pt =>
        { port := pt, protocol := "unknown", service := "unknown",
          source := "port_scan" }))
    []

/-! ### The result envelope and the settled-promise processing
    (getComprehensiveIPInfo, lines 56-141) -/

structure ProviderError where
  provider : String
  error : String
deriving Repr, DecidableEq

/-- The results object assembled by getComprehensiveIPInfo (lines 72-81,
105-127).  confidence is none when calculateConfidenceScores returned the
empty object. -/
structure Envelope where
  ip : String
  timestamp : Nat
  providers : List (String × ProviderData)
  aggregated : Aggregated
  confidence : Option Confidence
  threats : List Threat
  services : List ServiceInfo
  errors : List ProviderError
deriving Repr, DecidableEq

/-- One settled promise from Promise.allSettled: the adapters of this
class either fulfill with a truthy \x7bprovider, data\x7d record or reject
with an Error whose message we keep. -/
inductive Settled where
  | fulfilled (provider : String) (data : ProviderData)
  | rejected (message : String)
deriving Repr, DecidableEq

/-- Object-assignment semantics of results.providers[name] = data (and of
Map.prototype.set): an existing key keeps its position, a new key is
appended. -/
def assocSet {α : Type} (k : String) (v : α) : List (String × α) → List (String × α)
  | [] => [(k, v)]
  | (k', v') :: rest => if k' = k then (k, v) :: rest else (k', v') :: assocSet k v rest

def assocGet {α : Type} (k : String) : List (String × α) → Option α
  | [] => none
  | (k', v) :: rest => if k' = k then some v else assocGet k rest

/-- The forEach over providerResults (lines 105-115): fulfilled results
are stored under their provider name, rejected ones are pushed onto
errors as \x7bprovider: provider_<index>, error: message\x7d. -/
def processSettled (settled : List Settled) :
    List (String × ProviderData) × List ProviderError :=
  go 0 [] [] settled
where
  go (idx : Nat) (provs : List (String × ProviderData)) (errs : List ProviderError) :
      List Settled → List (String × ProviderData) × List ProviderError
    | [] => (provs, errs)
    | .fulfilled name d :: rest => go (idx + 1) (assocSet name d provs) errs rest
    | .rejected msg :: rest =>
        go (idx + 1) provs
          (errs ++ [{ provider := "provider_" ++ toString idx, error := msg }]) rest

/-- Lines 117-127: aggregate, score, analyze and assemble the envelope. -/
def buildEnvelope (ip : String) (now : Nat) (settled : List Settled) : Envelope :=
  let pe := processSettled settled
  { ip := ip, timestamp := now, providers := pe.1,
    aggregated := aggregateProviderData pe.1,
    confidence := calculateConfidenceScores pe.1,
    threats := analyzeThreatData pe.1,
    services := extractServiceInfo pe.1,
    errors := pe.2 }

/-! ### Options, adapter environment and dispatch (lines 84-99) -/

/-- The options argument.  includeBasic models options.includeBasic !== false,
so it defaults to true; the other flags default to false (undefined is
falsy). -/
structure Options where
  forceRefresh : Bool := false
  includeBasic : Bool := true
  includeDetailed : Bool := false
  includeThreatIntel : Bool := false
deriving Repr, DecidableEq

/-- The outcome each adapter's promise would settle with for the queried
IP; abstracts the network responses of fetchFromIPAPI, fetchFromIPInfo,
fetchFromIPGeolocation, fetchFromShodan and fetchThreatIntelligence. -/
structure AdapterEnv where
  ipapi : Settled
  ipinfo : Settled
  ipgeolocation : Settled
  shodan : Settled
  threatIntel : Settled
deriving Repr, DecidableEq

/-- The settled outcomes the dispatch collects when includeBasic is on
and includeDetailed is off: the two basic adapters followed, when
includeThreatIntel is set, by the two threat-intel adapters. -/
def basicSettled (env : AdapterEnv) (ti : Bool) : List Settled :=
  [env.ipapi, env.ipinfo] ++ (if ti then [env.shodan, env.threatIntel] else [])

/-- The message of the TypeError raised at line 93: the class defines no
fetchFromMaxMind method, so this.fetchFromMaxMind(ip) throws when
options.includeDetailed is set. -/
def maxMindError : String := "this.fetchFromMaxMind is not a function"

/-- Building providerPromises (lines 84-99).  Returns the settled
outcomes the dispatched adapters produce together with the number of
adapter invocations performed.  When includeDetailed is set the push of
this.fetchFromMaxMind(ip) throws synchronously after fetchFromIPGeolocation
has already been invoked, so the whole dispatch fails. -/
def dispatch (env : AdapterEnv) (opts : Options) :
    Except String (List Settled) × Nat :=
  let basic := if opts.includeBasic then [env.ipapi, env.ipinfo] else []
  if opts.includeDetailed then
    (.error maxMindError, basic.length + 1)
  else
    let rest := if opts.includeThreatIntel then [env.shodan, env.threatIntel] else []
    (.ok (basic ++ rest), basic.length + rest.length)

/-! ### Cache, history and the top-level call (lines 47-50, 541-567) -/

/-- this.cacheExpiry = 24 * 60 * 60 * 1000 (milliseconds, line 48). -/
def cacheExpiry : Nat := 24 * 60 * 60 * 1000

def maxHistorySize : Nat := 100

structure HistoryEntry where
  ip : String
  timestamp : Nat
  providers : List String
  success : Bool
deriving Repr, DecidableEq

/-- The mutable instance state: this.cache (a Map from IP to
\x7btimestamp, data\x7d) and this.requestHistory. -/
structure GeoState where
  cache : List (String × (Nat × Envelope))
  requestHistory : List HistoryEntry
deriving Repr, DecidableEq

def GeoState.init : GeoState := { cache := [], requestHistory := [] }

/-- getFromCache (lines 541-547): return the entry's data when
now - storedAt < cacheExpiry, else null.  Truncated Nat subtraction
agrees with the JavaScript comparison: for now ≥ storedAt both compute
the age, and for now < storedAt both sides deem the entry fresh (a
negative age is < cacheExpiry, and truncation gives 0 < cacheExpiry). -/
def getFromCache (cache : List (String × (Nat × Envelope))) (now : Nat) (ip : String) :
    Option Envelope :=
  match assocGet ip cache with
  | some (ts, data) => if now - ts < cacheExpiry then some data else none
  | none => none

/-- cacheResults (lines 549-554). -/
def cacheResults (cache : List (String × (Nat × Envelope))) (ip : String) (now : Nat)
    (data : Envelope) : List (String × (Nat × Envelope)) :=
  assocSet ip (now, data) cache

/-- addToHistory (lines 556-567): unshift then truncate to maxHistorySize. -/
def addToHistory (hist : List HistoryEntry) (ip : String) (now : Nat)
    (results : Envelope) : List HistoryEntry :=
  ({ ip := ip, timestamp := now, providers := results.providers.map Prod.fst,
     success := true } :: hist).take maxHistorySize

def invalidIPError : String := "Invalid IP address format"

/-- The catch block at lines 137-140 rewraps every thrown message. -/
def wrapError (msg : String) : String := "Failed to get IP information: " ++ msg

/-- The outcome of one call: the returned envelope or the thrown wrapped
error, the instance state after the call, and how many provider adapters
were invoked during the call. -/
structure CallResult where
  result : Except String Envelope
  state : GeoState
  adapterCalls : Nat
deriving Repr

instance : DecidableEq (Except String Envelope) := fun a b =>
  match a, b with
  | .ok x, .ok y => decidable_of_iff (x = y) (by simp)
  | .error x, .error y => decidable_of_iff (x = y) (by simp)
  | .ok _, .error _ => isFalse (by simp)
  | .error _, .ok _ => isFalse (by simp)

instance : DecidableEq CallResult := fun a b =>
  decidable_of_iff
    (a.result = b.result ∧ a.state = b.state ∧ a.adapterCalls = b.adapterCalls)
    (by cases a; cases b; simp)

/-- getComprehensiveIPInfo (lines 56-141): validate the IP, consult the
cache (a fresh hit is returned as-is unless forceRefresh), dispatch the
selected adapters, process the settled results, build the envelope, cache
it and record history.  A throw anywhere inside the try is rewrapped by
the catch block and leaves the state untouched. -/
def getComprehensiveIPInfo (st : GeoState) (now : Nat) (env : AdapterEnv)
    (ip : String) (opts : Options) : CallResult :=
  if !isValidIP ip then
    { result := .error (wrapError invalidIPError), state := st, adapterCalls := 0 }
  else
    match getFromCache st.cache now ip with
    | some cached =>
      if !opts.forceRefresh then
        { result := .ok cached, state := st, adapterCalls := 0 }
      else fetchPath st now env ip opts
    | none => fetchPath st now env ip opts
where
  fetchPath (st : GeoState) (now : Nat) (env : AdapterEnv) (ip : String)
      (opts : Options) : CallResult :=
    match dispatch env opts with
    | (.error msg, calls) =>
      { result := .error (wrapError msg), state := st, adapterCalls := calls }
    | (.ok settled, calls) =>
      let e := buildEnvelope ip now settled
      { result := .ok e,
        state := { cache := cacheResults st.cache ip now e,
                   requestHistory := addToHistory st.requestHistory ip now e },
        adapterCalls := calls }

/-! ### Concrete instances used when evaluating the model -/

/-- An environment in which every adapter's promise rejects. -/
def sampleFailEnv : AdapterEnv :=
  { ipapi := .rejected "HTTP 500: Internal Server Error"
    ipinfo := .rejected "HTTP 429: Too Many Requests"
    ipgeolocation := .rejected "IPGeolocation.io API token not configured"
    shodan := .rejected "Shodan API token not configured"
    threatIntel := .rejected "network error" }

/-- An environment in which the two basic adapters fulfill. -/
def sampleOkEnv : AdapterEnv :=
  { ipapi := .fulfilled "ipapi"
      { country := some "United States", city := some "Mountain View",
        latitude := some 37, longitude := some (-122),
        isp := some "Google LLC", asn := some "AS15169" }
    ipinfo := .fulfilled "ipinfo"
      { country := some "US", city := some "Mountain View",
        latitude := some 37, longitude := some (-122),
        org := some "Google LLC" }
    ipgeolocation := .rejected "IPGeolocation.io API token not configured"
    shodan := .rejected "Shodan API token not configured"
    threatIntel := .fulfilled "threat_intel" {} }

/-- An envelope value used to populate a cache in concrete tests. -/
def sampleEnvelope : Envelope := buildEnvelope "8.8.8.8" 0 []

/-- The canonical dotted-quad rendering of four octet values. -/
def ipv4String (a b c d : Nat) : String :=
  Nat.repr a ++ "." ++ Nat.repr b ++ "." ++ Nat.repr c ++ "." ++ Nat.repr d

/-- Specification-side description of which numeric values a field
contributes to the aggregation: the values that are supplied (non-null)
and truthy (nonzero), in record order.  Used to compare the code's
one-pass collector against the spec's wording. -/
def specTruthyNumeric (f : ProviderData → Option ℚ)
    (provs : List (String × ProviderData)) : List ℚ :=
  ((provs.map fun p => f p.2).reduceOption).filter (fun x => x != 0)

/-- Specification-side description of which string values a field
contributes: the supplied (non-null), truthy (nonempty) values in record
order. -/
def specTruthyString (f : ProviderData → Option String)
    (provs : List (String × ProviderData)) : List String :=
  ((provs.map fun p => f p.2).reduceOption).filter (fun s => s != "")

/-- Specification-side arithmetic mean: the mean of a nonempty value
list, absent for an empty one. -/
def specMean (vals : List ℚ) : Option ℚ :=
  if vals = [] then none else some (vals.sum / (vals.length : ℚ))

/-! ## Lemmas about the delimiter split -/

theorem splitOnChar_ne_nil (c : Char) (l : List Char) : splitOnChar c l ≠ [] := by
  induction l with
  | nil => simp [splitOnChar]
  | cons x xs ih =>
    rw [splitOnChar]
    cases h : splitOnChar c xs with
    | nil => simp
    | cons p ps => by_cases hx : x = c <;> simp [hx]

theorem splitOnChar_of_not_mem {c : Char} {l : List Char} (h : c ∉ l) :
    splitOnChar c l = [l] := by
  induction l with
  | nil => rfl
  | cons x xs ih =>
    have hx : x ≠ c := fun e => h (e ▸ List.mem_cons_self x xs)
    have hxs : c ∉ xs := fun m => h (List.mem_cons_of_mem x m)
    rw [splitOnChar, ih hxs]
    simp [hx]

theorem splitOnChar_append {c : Char} {l₁ l₂ : List Char} (h : c ∉ l₁) :
    splitOnChar c (l₁ ++ c :: l₂) = l₁ :: splitOnChar c l₂ := by
  induction l₁ with
  | nil =>
    rw [List.nil_append, splitOnChar]
    cases hs : splitOnChar c l₂ with
    | nil => exact absurd hs (splitOnChar_ne_nil c l₂)
    | cons p ps => simp
  | cons x xs ih =>
    have hx : x ≠ c := fun e => h (e ▸ List.mem_cons_self x xs)
    have hxs : c ∉ xs := fun m => h (List.mem_cons_of_mem x m)
    rw [List.cons_append, splitOnChar, ih hxs]
    simp [hx]

theorem exists_part_of_mem {c x : Char} {l : List Char} (hx : x ∈ l) (hne : x ≠ c) :
    ∃ p ∈ splitOnChar c l, x ∈ p := by
  induction l with
  | nil => cases hx
  | cons y ys ih =>
    rw [splitOnChar]
    cases hs : splitOnChar c ys with
    | nil => exact absurd hs (splitOnChar_ne_nil c ys)
    | cons p ps =>
      by_cases hy : y = c
      · subst hy
        rcases List.mem_cons.mp hx with rfl | hmem
        · exact absurd rfl hne
        · obtain ⟨q, hq, hxq⟩ := ih hmem
          rw [hs] at hq
          exact ⟨q, by simp [List.mem_cons.mp hq], hxq⟩
      · simp only [if_neg hy]
        rcases List.mem_cons.mp hx with rfl | hmem
        · exact ⟨x :: p, by simp, List.mem_cons_self x p⟩
        · obtain ⟨q, hq, hxq⟩ := ih hmem
          rw [hs] at hq
          rcases List.mem_cons.mp hq with rfl | hq'
          · exact ⟨y :: q, by simp, List.mem_cons_of_mem y hxq⟩
          · exact ⟨q, by simp [hq'], hxq⟩

/-! ## Lemmas about isValidIP -/

theorem validOctet_eq_false_of_not_digit {p : List Char} {x : Char} (hx : x ∈ p)
    (hd : x.isDigit = false) : validOctet p = false := by
  have hall : p.all Char.isDigit = false :=
    List.all_eq_false.mpr ⟨x, hx, by simp [hd]⟩
  rw [validOctet, hall, Bool.false_and]

theorem checkFourOctets_eq_false {parts : List (List Char)} {p : List Char}
    (hp : p ∈ parts) (hbad : validOctet p = false) : checkFourOctets parts = false := by
  match parts with
  | [] => rfl
  | [_] => rfl
  | [_, _] => rfl
  | [_, _, _] => rfl
  | [a, b, c, d] =>
    simp only [List.mem_cons, List.not_mem_nil, or_false] at hp
    rcases hp with rfl | rfl | rfl | rfl <;> simp [checkFourOctets, hbad]
  | _ :: _ :: _ :: _ :: _ :: _ => rfl

theorem not_mem_of_all_digit {l : List Char} (h : l.all Char.isDigit = true)
    {x : Char} (hx : x.isDigit = false) : x ∉ l := by
  intro hm
  have := List.all_eq_true.mp h x hm
  rw [hx] at this
  cases this

/-- The ipv6 regex demands a nonempty hex group between every pair of
colons, so a split containing an empty part can never match. -/
theorem isValidIPv6_eq_false_of_nil_mem {l : List Char}
    (h : [] ∈ splitOnChar ':' l) : isValidIPv6 l = false := by
  have hall : (splitOnChar ':' l).all validHexGroup = false :=
    List.all_eq_false.mpr ⟨[], h, by simp [validHexGroup]⟩
  rw [isValidIPv6]
  simp only [hall, Bool.and_false]

/-- A character that is neither a digit nor the dot defeats the ipv4
regex: it survives into one of the dot-separated parts, whose octet test
requires digits only. -/
theorem isValidIPv4_eq_false_of_bad_char {l : List Char} {x : Char} (hx : x ∈ l)
    (hd : x.isDigit = false) (hne : x ≠ '.') : isValidIPv4 l = false := by
  obtain ⟨p, hp, hxp⟩ := exists_part_of_mem hx hne
  rw [isValidIPv4]
  exact checkFourOctets_eq_false hp (validOctet_eq_false_of_not_digit hxp hd)

/-- Any input whose colon-split contains an empty group (in particular
every address written with the :: shorthand) fails isValidIP. -/
theorem isValidIP_eq_false_of_nil_colon_part {s : String}
    (h : [] ∈ splitOnChar ':' s.data) : isValidIP s = false := by
  rw [isValidIP, isValidIPv6_eq_false_of_nil_mem h, Bool.or_false]
  by_cases hc : ':' ∈ s.data
  · exact isValidIPv4_eq_false_of_bad_char hc (by decide) (by decide)
  · rw [splitOnChar_of_not_mem hc] at h
    have : s.data = [] := by
      rcases List.mem_singleton.mp h with e
      exact e.symm
    rw [this]
    rfl

set_option maxRecDepth 40000 in
/-- Every canonical decimal rendering of a value in 0..255 matches the
octet alternation of the ipv4 regex. -/
theorem validOctet_repr : ∀ n : Nat, n < 256 → validOctet (Nat.repr n).data = true := by
  decide

theorem repr_all_digit {n : Nat} (h : n < 256) :
    (Nat.repr n).data.all Char.isDigit = true := by
  have hv := validOctet_repr n h
  rw [validOctet, Bool.and_eq_true] at hv
  exact hv.1

theorem ipv4String_accepted {a b c d : Nat} (ha : a < 256) (hb : b < 256)
    (hc : c < 256) (hd : d < 256) : isValidIP (ipv4String a b c d) = true := by
  have hdata : (ipv4String a b c d).data =
      (Nat.repr a).data ++ '.' ::
        ((Nat.repr b).data ++ '.' :: ((Nat.repr c).data ++ '.' :: (Nat.repr d).data)) := by
    simp [ipv4String, String.data_append]
  have nd : ∀ n : Nat, n < 256 → '.' ∉ (Nat.repr n).data := fun n hn =>
    not_mem_of_all_digit (repr_all_digit hn) (by decide)
  have hsplit : splitOnChar '.' (ipv4String a b c d).data =
      [(Nat.repr a).data, (Nat.repr b).data, (Nat.repr c).data, (Nat.repr d).data] := by
    rw [hdata, splitOnChar_append (nd a ha), splitOnChar_append (nd b hb),
      splitOnChar_append (nd c hc), splitOnChar_of_not_mem (nd d hd)]
  have h4 : isValidIPv4 (ipv4String a b c d).data = true := by
    rw [isValidIPv4, hsplit]
    simp [checkFourOctets, validOctet_repr a ha, validOctet_repr b hb,
      validOctet_repr c hc, validOctet_repr d hd]
  rw [isValidIP, h4, Bool.true_or]

/-! ## Lemmas about getMostCommon -/

theorem foldl_keys_mem (l : List String) (acc : List String) (x : String) :
    x ∈ l.foldl (fun ks y => if y ∈ ks then ks else ks ++ [y]) acc ↔ x ∈ acc ∨ x ∈ l := by
  induction l generalizing acc with
  | nil => simp
  | cons y ys ih =>
    rw [List.foldl_cons, ih]
    by_cases hy : y ∈ acc
    · simp only [if_pos hy, List.mem_cons]
      constructor
      · rintro (h | h)
        · exact Or.inl h
        · exact Or.inr (Or.inr h)
      · rintro (h | rfl | h)
        · exact Or.inl h
        · exact Or.inl hy
        · exact Or.inr h
    · simp only [if_neg hy, List.mem_append, List.mem_singleton, List.mem_cons]
      tauto

theorem mem_keysInOrder {l : List String} {x : String} :
    x ∈ keysInOrder l ↔ x ∈ l := by
  rw [keysInOrder, foldl_keys_mem]
  simp

/-- The reduce `(a, b) => counts[a] > counts[b] ? a : b` lands on an entry
of maximal count; everything before it counts no higher, and everything
after it counts strictly lower (a tie moves the accumulator to the later
key). -/
theorem foldl_pick_decomp (cnt : String → Nat) (ks : List String) (k : String) :
    ∃ pre post,
      pre ++ (ks.foldl (fun a b => if cnt a > cnt b then a else b) k) :: post = k :: ks ∧
      (∀ w ∈ pre, cnt w ≤ cnt (ks.foldl (fun a b => if cnt a > cnt b then a else b) k)) ∧
      (∀ w ∈ post, cnt w < cnt (ks.foldl (fun a b => if cnt a > cnt b then a else b) k)) := by
  induction ks generalizing k with
  | nil => exact ⟨[], [], rfl, by simp, by simp⟩
  | cons b rest ih =>
    rw [List.foldl_cons]
    by_cases h : cnt k > cnt b
    · rw [if_pos h]
      obtain ⟨pre, post, hdec, hpre, hpost⟩ := ih k
      cases pre with
      | nil =>
        rw [List.nil_append] at hdec
        injection hdec with h1 h2
        refine ⟨[], b :: post, ?_, by simp, ?_⟩
        · rw [List.nil_append, h1, h2]
        · intro w hw
          rcases List.mem_cons.mp hw with rfl | hw
          · rw [h1]; exact h
          · exact hpost w hw
      | cons p pre₁ =>
        rw [List.cons_append] at hdec
        injection hdec with h1 h2
        have hkp : cnt p ≤ cnt (rest.foldl (fun a b => if cnt a > cnt b then a else b) k) :=
          hpre p (List.mem_cons_self p pre₁)
        have hbp : cnt b ≤ cnt p := by
          rw [h1]
          exact Nat.le_of_lt h
        refine ⟨p :: b :: pre₁, post, ?_, ?_, hpost⟩
        · rw [List.cons_append, List.cons_append, h1, h2]
        · intro w hw
          rcases List.mem_cons.mp hw with h3 | hw2
          · rw [h3]; exact hkp
          · rcases List.mem_cons.mp hw2 with h3 | hw3
            · rw [h3]; exact le_trans hbp hkp
            · exact hpre w (List.mem_cons_of_mem p hw3)
    · rw [if_neg h]
      have hkb : cnt k ≤ cnt b := Nat.le_of_not_lt h
      obtain ⟨pre, post, hdec, hpre, hpost⟩ := ih b
      cases pre with
      | nil =>
        rw [List.nil_append] at hdec
        injection hdec with h1 h2
        refine ⟨[k], post, ?_, ?_, hpost⟩
        · rw [List.singleton_append, h1, h2]
        · intro w hw
          rcases List.mem_singleton.mp hw with rfl
          rw [h1]
          exact hkb
      | cons p pre₁ =>
        rw [List.cons_append] at hdec
        injection hdec with h1 h2
        have hkp : cnt p ≤ cnt (rest.foldl (fun a b => if cnt a > cnt b then a else b) b) :=
          hpre p (List.mem_cons_self p pre₁)
        have hkb' : cnt k ≤ cnt p := by
          rw [h1]
          exact hkb
        refine ⟨k :: p :: pre₁, post, ?_, ?_, hpost⟩
        · rw [List.cons_append, List.cons_append, h1, h2]
        · intro w hw
          rcases List.mem_cons.mp hw with h3 | hw2
          · rw [h3]; exact le_trans hkb' hkp
          · rcases List.mem_cons.mp hw2 with h3 | hw3
            · rw [h3]; exact hkp
            · exact hpre w (List.mem_cons_of_mem p hw3)

/-- Full characterization of getMostCommon on a value: it is drawn from
the list, has maximal occurrence count, and within the first-occurrence
key order everything after it counts strictly lower. -/
theorem getMostCommon_spec {l : List String} {v : String}
    (h : getMostCommon l = some v) :
    v ∈ l ∧ (∀ w ∈ l, l.count w ≤ l.count v) ∧
      ∃ pre post, keysInOrder l = pre ++ v :: post ∧
        ∀ w ∈ post, l.count w < l.count v := by
  rw [getMostCommon] at h
  cases hk : keysInOrder l with
  | nil => rw [hk] at h; cases h
  | cons k ks =>
    rw [hk] at h
    simp only [Option.some.injEq] at h
    obtain ⟨pre, post, hdec, hpre, hpost⟩ := foldl_pick_decomp (fun x => l.count x) ks k
    rw [h] at hdec hpre hpost
    have hvmem : v ∈ keysInOrder l := by
      rw [hk, ← hdec]
      exact List.mem_append_right pre (List.mem_cons_self v post)
    refine ⟨mem_keysInOrder.mp hvmem, ?_, pre, post, hdec.symm, hpost⟩
    intro w hw
    have hwk : w ∈ (k :: ks) := hk ▸ mem_keysInOrder.mpr hw
    rw [← hdec] at hwk
    rcases List.mem_append.mp hwk with hw' | hw'
    · exact hpre w hw'
    · rcases List.mem_cons.mp hw' with rfl | hw'
      · exact le_refl _
      · exact Nat.le_of_lt (hpost w hw')

/-! ## Lemmas about the collectors and the average -/

theorem collectQ_aux (f : ProviderData → Option ℚ)
    (provs : List (String × ProviderData)) :
    ∀ acc : List ℚ,
      provs.foldl (fun acc p => pushTruthyQ acc (f p.2)) acc =
        acc ++ specTruthyNumeric f provs := by
  induction provs with
  | nil => intro acc; simp [specTruthyNumeric]
  | cons p ps ih =>
    intro acc
    rw [List.foldl_cons, ih]
    cases hf : f p.2 with
    | none => simp [pushTruthyQ, specTruthyNumeric, hf]
    | some x =>
      by_cases hx : x = 0
      · simp [pushTruthyQ, specTruthyNumeric, hf, hx]
      · simp [pushTruthyQ, specTruthyNumeric, hf, hx]

theorem collectQ_eq_spec (f : ProviderData → Option ℚ)
    (provs : List (String × ProviderData)) :
    collectQ f provs = specTruthyNumeric f provs := by
  rw [collectQ, collectQ_aux f provs [], List.nil_append]

theorem collectS_aux (f : ProviderData → Option String)
    (provs : List (String × ProviderData)) :
    ∀ acc : List String,
      provs.foldl (fun acc p => pushTruthyS acc (f p.2)) acc =
        acc ++ specTruthyString f provs := by
  induction provs with
  | nil => intro acc; simp [specTruthyString]
  | cons p ps ih =>
    intro acc
    rw [List.foldl_cons, ih]
    cases hf : f p.2 with
    | none => simp [pushTruthyS, specTruthyString, hf]
    | some s =>
      by_cases hs : s = ""
      · simp [pushTruthyS, specTruthyString, hf, hs]
      · simp [pushTruthyS, specTruthyString, hf, hs]

theorem collectS_eq_spec (f : ProviderData → Option String)
    (provs : List (String × ProviderData)) :
    collectS f provs = specTruthyString f provs := by
  rw [collectS, collectS_aux f provs [], List.nil_append]

theorem foldl_add_eq (l : List ℚ) : ∀ a : ℚ, l.foldl (fun x y => x + y) a = a + l.sum := by
  induction l with
  | nil => intro a; simp
  | cons x xs ih => intro a; rw [List.foldl_cons, ih, List.sum_cons]; ring

theorem getAverage_eq_specMean (l : List ℚ) : getAverage l = specMean l := by
  rw [getAverage, specMean]
  cases l with
  | nil => rfl
  | cons x xs => simp [foldl_add_eq]

/-! ## Lemmas about the cache map and the top-level call -/

theorem assocGet_assocSet {α : Type} (k : String) (v : α) (m : List (String × α)) :
    assocGet k (assocSet k v m) = some v := by
  induction m with
  | nil => simp [assocSet, assocGet]
  | cons e rest ih =>
    cases e with
    | mk k' v' =>
      by_cases h : k' = k
      · simp [assocSet, assocGet, h]
      · simp [assocSet, assocGet, h, ih]

theorem getComprehensiveIPInfo_invalid {st : GeoState} {now : Nat} {env : AdapterEnv}
    {ip : String} {opts : Options} (h : isValidIP ip = false) :
    getComprehensiveIPInfo st now env ip opts =
      { result := .error (wrapError invalidIPError), state := st, adapterCalls := 0 } := by
  rw [getComprehensiveIPInfo, h]
  rfl

theorem getComprehensiveIPInfo_cacheHit {st : GeoState} {now : Nat} {env : AdapterEnv}
    {ip : String} {opts : Options} {ts : Nat} {e : Envelope}
    (hv : isValidIP ip = true) (hfr : opts.forceRefresh = false)
    (hget : assocGet ip st.cache = some (ts, e)) (hfresh : now - ts < cacheExpiry) :
    getComprehensiveIPInfo st now env ip opts =
      { result := .ok e, state := st, adapterCalls := 0 } := by
  rw [getComprehensiveIPInfo, hv]
  have hc : getFromCache st.cache now ip = some e := by
    simp [getFromCache, hget, hfresh]
  rw [hc]
  simp [hfr]

theorem getComprehensiveIPInfo_miss {st : GeoState} {now : Nat} {env : AdapterEnv}
    {ip : String} {opts : Options}
    (hv : isValidIP ip = true) (hmiss : getFromCache st.cache now ip = none) :
    getComprehensiveIPInfo st now env ip opts =
      getComprehensiveIPInfo.fetchPath st now env ip opts := by
  rw [getComprehensiveIPInfo, hv, hmiss]
  simp

theorem fetchPath_detailed {st : GeoState} {now : Nat} {env : AdapterEnv} {ip : String}
    {fr ib ti : Bool} :
    getComprehensiveIPInfo.fetchPath st now env ip
        { forceRefresh := fr, includeBasic := ib, includeDetailed := true,
          includeThreatIntel := ti } =
      { result := .error (wrapError maxMindError), state := st,
        adapterCalls := (if ib then 2 else 0) + 1 } := by
  cases ib <;> rfl

theorem fetchPath_basic {st : GeoState} {now : Nat} {env : AdapterEnv} {ip : String}
    {fr ti : Bool} :
    getComprehensiveIPInfo.fetchPath st now env ip
        { forceRefresh := fr, includeBasic := true, includeDetailed := false,
          includeThreatIntel := ti } =
      { result := .ok (buildEnvelope ip now (basicSettled env ti)),
        state := GeoState.mk
          (cacheResults st.cache ip now (buildEnvelope ip now (basicSettled env ti)))
          (addToHistory st.requestHistory ip now (buildEnvelope ip now (basicSettled env ti))),
        adapterCalls := 2 + (if ti then 2 else 0) } := by
  cases ti <;> rfl

theorem aggregated_latitude_eq (provs : List (String × ProviderData)) :
    (aggregateProviderData provs).location.latitude =
      specMean (specTruthyNumeric (fun d => d.latitude) provs) := by
  show getAverage (collectQ (fun d => d.latitude) provs) = _
  rw [collectQ_eq_spec, getAverage_eq_specMean]

theorem aggregated_longitude_eq (provs : List (String × ProviderData)) :
    (aggregateProviderData provs).location.longitude =
      specMean (specTruthyNumeric (fun d => d.longitude) provs) := by
  show getAverage (collectQ (fun d => d.longitude) provs) = _
  rw [collectQ_eq_spec, getAverage_eq_specMean]

/-! ## The claims -/

/-- C8: every key that fails IP format validation (for example
"999.999.1.1") makes getComprehensiveIPInfo fail with the
invalid-key-format error before any provider adapter is invoked: zero
adapter calls are made, no envelope is produced and the state is
untouched. -/
theorem C8_invalid_key_rejected_without_dispatch :
    isValidIP "999.999.1.1" = false ∧
    ∀ (st : GeoState) (now : Nat) (env : AdapterEnv) (ip : String) (opts : Options),
      isValidIP ip = false →
      getComprehensiveIPInfo st now env ip opts =
        { result := .error (wrapError invalidIPError), state := st, adapterCalls := 0 } :=
  ⟨by decide, fun _ _ _ _ _ h => getComprehensiveIPInfo_invalid h⟩

theorem C8_witness :
    isValidIP "999.999.1.1" = false ∧
    getComprehensiveIPInfo GeoState.init 0 sampleFailEnv "999.999.1.1" {} =
      { result := .error (wrapError invalidIPError), state := GeoState.init,
        adapterCalls := 0 } :=
  ⟨by decide,
    C8_invalid_key_rejected_without_dispatch.2 GeoState.init 0 sampleFailEnv
      "999.999.1.1" {} (by decide)⟩

/-- C9: the cache is keyed by the IP string alone, so on a fresh cache
hit with forceRefresh unset the call returns the stored envelope
regardless of the current includeBasic/includeDetailed/includeThreatIntel
options, with zero adapter invocations. -/
theorem C9_cache_hit_ignores_options :
    ∀ (st : GeoState) (now : Nat) (env : AdapterEnv) (ip : String) (opts : Options)
      (ts : Nat) (e : Envelope),
      opts.forceRefresh = false → isValidIP ip = true →
      assocGet ip st.cache = some (ts, e) → now - ts < cacheExpiry →
      getComprehensiveIPInfo st now env ip opts =
        { result := .ok e, state := st, adapterCalls := 0 } :=
  fun _ _ _ _ _ _ _ hfr hv hget hfresh =>
    getComprehensiveIPInfo_cacheHit hv hfr hget hfresh

theorem C9_witness :
    getComprehensiveIPInfo ⟨[("8.8.8.8", (0, sampleEnvelope))], []⟩ 5 sampleFailEnv
        "8.8.8.8"
        { forceRefresh := false, includeBasic := true, includeDetailed := true,
          includeThreatIntel := true } =
      { result := .ok sampleEnvelope,
        state := ⟨[("8.8.8.8", (0, sampleEnvelope))], []⟩, adapterCalls := 0 } :=
  C9_cache_hit_ignores_options ⟨[("8.8.8.8", (0, sampleEnvelope))], []⟩ 5 sampleFailEnv
    "8.8.8.8" _ 0 sampleEnvelope rfl (by decide) rfl (by decide)

/-- C10: key validation accepts IPv6 only in fully-expanded eight-group
form: any input whose colon-split contains an empty group (every literal
using the :: shorthand) is rejected, and getComprehensiveIPInfo throws
for it, while dotted-quad IPv4 addresses with octets in 0..255 are
accepted. -/
theorem C10_ipv6_compression_rejected_ipv4_accepted :
    (∀ (s : String) (st : GeoState) (now : Nat) (env : AdapterEnv) (opts : Options),
      [] ∈ splitOnChar ':' s.data →
      getComprehensiveIPInfo st now env s opts =
        { result := .error (wrapError invalidIPError), state := st, adapterCalls := 0 }) ∧
    isValidIP "::1" = false ∧
    isValidIP "2001:db8::1" = false ∧
    isValidIP "2001:0db8:85a3:0000:0000:8a2e:0370:7334" = true ∧
    (∀ a b c d : Nat, a < 256 → b < 256 → c < 256 → d < 256 →
      isValidIP (ipv4String a b c d) = true) := by
  refine ⟨?_, by decide, by decide, by decide, ?_⟩
  · intro s st now env opts h
    exact getComprehensiveIPInfo_invalid (isValidIP_eq_false_of_nil_colon_part h)
  · intro a b c d ha hb hc hd
    exact ipv4String_accepted ha hb hc hd

theorem C10_witness :
    getComprehensiveIPInfo GeoState.init 0 sampleFailEnv "2001:db8::1" {} =
      { result := .error (wrapError invalidIPError), state := GeoState.init,
        adapterCalls := 0 } ∧
    isValidIP (ipv4String 192 168 0 1) = true :=
  ⟨C10_ipv6_compression_rejected_ipv4_accepted.1 "2001:db8::1" GeoState.init 0
      sampleFailEnv {} (by decide),
    C10_ipv6_compression_rejected_ipv4_accepted.2.2.2.2 192 168 0 1 (by decide)
      (by decide) (by decide) (by decide)⟩

/-- C1: the claim says that for every mix of succeeding and failing
adapters the call returns normally with fulfilled adapters in providers
and rejected ones in errors.  The code cannot honor this for the
includeDetailed adapter set: the class never defines fetchFromMaxMind,
so line 93 throws a TypeError that the catch block rewraps, and the call
fails for every adapter environment whatsoever — the envelope is never
built.  This theorem evaluates the code at the failing input. -/
theorem C1_maxmind_dispatch_crash :
    ∀ env : AdapterEnv,
      getComprehensiveIPInfo GeoState.init 0 env "8.8.8.8"
          { forceRefresh := false, includeBasic := true, includeDetailed := true,
            includeThreatIntel := false } =
        { result := .error (wrapError maxMindError), state := GeoState.init,
          adapterCalls := 3 } := by
  intro env
  rw [getComprehensiveIPInfo_miss (by decide)
        (show getFromCache GeoState.init.cache 0 "8.8.8.8" = none from rfl),
      fetchPath_detailed]
  rfl

/-- C2 as stated is false on the code: when zero adapters succeed the
envelope is produced, but calculateConfidenceScores returns the empty
object, so confidence carries no overall field at all — it is not 0. -/
theorem C2_counterexample_confidence_absent :
    ∃ e : Envelope,
      (getComprehensiveIPInfo GeoState.init 0 sampleFailEnv "8.8.8.8"
          { forceRefresh := false, includeBasic := true, includeDetailed := false,
            includeThreatIntel := false }).result = .ok e ∧
      e.providers = [] ∧ e.confidence = none :=
  ⟨buildEnvelope "8.8.8.8" 0 (basicSettled sampleFailEnv false),
    by decide, by decide, by decide⟩

/-- C2 amended: for a valid, uncached IP under the default adapter set,
when both dispatched adapters reject, the call still returns an envelope
(no exception), every aggregated field is absent, the errors list records
both rejections — but confidence is the empty object (overall absent)
rather than overall = 0. -/
theorem C2_zero_success_envelope :
    ∀ (st : GeoState) (t : Nat) (env : AdapterEnv) (ip : String) (m1 m2 : String),
      isValidIP ip = true → getFromCache st.cache t ip = none →
      env.ipapi = .rejected m1 → env.ipinfo = .rejected m2 →
      ∃ e : Envelope,
        (getComprehensiveIPInfo st t env ip
            { forceRefresh := false, includeBasic := true, includeDetailed := false,
              includeThreatIntel := false }).result = .ok e ∧
        e.providers = [] ∧
        e.confidence = none ∧
        e.aggregated = ⟨⟨none, none, none, none, none, none⟩, ⟨none, none, none⟩⟩ ∧
        e.errors = [⟨"provider_0", m1⟩, ⟨"provider_1", m2⟩] := by
  intro st t env ip m1 m2 hv hmiss h1 h2
  rw [getComprehensiveIPInfo_miss hv hmiss, fetchPath_basic]
  refine ⟨buildEnvelope ip t (basicSettled env false), rfl, ?_, ?_, ?_, ?_⟩ <;>
  · rw [basicSettled, h1, h2]
    rfl

theorem C2_witness :
    ∃ e : Envelope,
      (getComprehensiveIPInfo GeoState.init 7 sampleFailEnv "1.1.1.1"
          { forceRefresh := false, includeBasic := true, includeDetailed := false,
            includeThreatIntel := false }).result = .ok e ∧
      e.providers = [] ∧
      e.confidence = none ∧
      e.aggregated = ⟨⟨none, none, none, none, none, none⟩, ⟨none, none, none⟩⟩ ∧
      e.errors = [⟨"provider_0", "HTTP 500: Internal Server Error"⟩,
        ⟨"provider_1", "HTTP 429: Too Many Requests"⟩] :=
  C2_zero_success_envelope GeoState.init 7 sampleFailEnv "1.1.1.1"
    "HTTP 500: Internal Server Error" "HTTP 429: Too Many Requests"
    (by decide) rfl rfl rfl

/-- C3 as stated is false on the code: for the no-repeat value list
["A", "B"] the aggregated city is "B", the last-seen value, not the
first-seen "A" — the reduce in getMostCommon moves to the later key on a
tie. -/
theorem C3_counterexample_tie_goes_last :
    (aggregateProviderData
        [("p1", { city := some "A" }), ("p2", { city := some "B" })]).location.city =
      some "B" ∧ some "B" ≠ some "A" :=
  ⟨by decide, by decide⟩

/-- C3 amended: each categorical field collects the truthy supplied
values in record order and picks a value of maximal occurrence count,
but ties break to the LAST-seen distinct value, not the first-seen:
everything after the winner in first-occurrence key order counts
strictly lower.  ["Paris","Paris","Berlin"] still aggregates to "Paris";
["A","B"] aggregates to "B". -/
theorem C3_most_common_max_last_tie :
    (∀ (f : ProviderData → Option String) (provs : List (String × ProviderData)),
      collectS f provs = specTruthyString f provs) ∧
    (∀ (l : List String) (v : String), getMostCommon l = some v →
      v ∈ l ∧ (∀ w ∈ l, l.count w ≤ l.count v) ∧
      ∃ pre post, keysInOrder l = pre ++ v :: post ∧
        ∀ w ∈ post, l.count w < l.count v) ∧
    (aggregateProviderData
        [("p1", { city := some "Paris" }), ("p2", { city := some "Paris" }),
         ("p3", { city := some "Berlin" })]).location.city = some "Paris" ∧
    (aggregateProviderData
        [("p1", { city := some "A" }), ("p2", { city := some "B" })]).location.city =
      some "B" :=
  ⟨collectS_eq_spec, fun _ _ h => getMostCommon_spec h, by decide, by decide⟩

theorem C3_witness :
    "B" ∈ ["A", "B"] ∧
    (∀ w ∈ ["A", "B"], (["A", "B"] : List String).count w ≤ (["A", "B"] : List String).count "B") ∧
    ∃ pre post, keysInOrder ["A", "B"] = pre ++ "B" :: post ∧
      ∀ w ∈ post, (["A", "B"] : List String).count w < (["A", "B"] : List String).count "B" :=
  C3_most_common_max_last_tie.2.1 ["A", "B"] "B" (by decide)

/-- C4 as stated is false on the code at providerCount = 0: the scorer
returns the empty object, not a record with overall = min(1, 0) = 0. -/
theorem C4_counterexample_empty_at_zero :
    calculateConfidenceScores [] = none ∧
    ∀ c : Confidence, calculateConfidenceScores [] ≠ some c :=
  ⟨rfl, fun _ h => Option.noConfusion h⟩

/-- C4 amended: for one or more provider records the scorer returns
overall = min(1, 0.25 × providerCount), location = network = overall and
security = overall × 0.8; for zero records it returns the empty object
(all fields absent). -/
theorem C4_confidence_formula :
    (∀ provs : List (String × ProviderData), 1 ≤ provs.length →
      ∃ c, calculateConfidenceScores provs = some c ∧
        c.overall = min 1 ((1 / 4 : ℚ) * provs.length) ∧
        c.location = c.overall ∧ c.network = c.overall ∧
        c.security = c.overall * (8 / 10 : ℚ)) ∧
    (∀ provs : List (String × ProviderData), provs.length = 0 →
      calculateConfidenceScores provs = none) := by
  constructor
  · intro provs h
    have h0 : ¬provs.length = 0 := by omega
    rw [calculateConfidenceScores]
    simp only [if_neg h0]
    refine ⟨_, rfl, ?_, rfl, rfl, ?_⟩
    · rw [min_comm, mul_comm]
    · norm_num
  · intro provs h
    rw [calculateConfidenceScores]
    simp only [if_pos h]

theorem C4_witness :
    ∃ c, calculateConfidenceScores [("ipapi", {})] = some c ∧
      c.overall = min 1 ((1 / 4 : ℚ) *
        ([("ipapi", ({} : ProviderData))] : List (String × ProviderData)).length) ∧
      c.location = c.overall ∧ c.network = c.overall ∧
      c.security = c.overall * (8 / 10 : ℚ) :=
  C4_confidence_formula.1 [("ipapi", {})] (by decide)

/-- C5 as stated is false on the code at a successful-provider count of
zero: the scorer returns the empty object there, so there is no overall
value lying in the interval at all. -/
theorem C5_counterexample_no_overall_at_zero :
    ¬∃ c : Confidence,
      calculateConfidenceScores [] = some c ∧ 0 ≤ c.overall ∧ c.overall ≤ 1 := by
  rintro ⟨c, h, -, -⟩
  exact Option.noConfusion h

/-- C5 amended: over counts ≥ 1, confidence.overall is monotonically
non-decreasing in the number of successful provider records, and
whenever an overall value exists it lies in [0, 1]; at count 0 the
confidence object is empty. -/
theorem C5_confidence_monotone_bounded :
    (∀ l1 l2 : List (String × ProviderData), 1 ≤ l1.length → l1.length ≤ l2.length →
      ∃ c1 c2, calculateConfidenceScores l1 = some c1 ∧
        calculateConfidenceScores l2 = some c2 ∧ c1.overall ≤ c2.overall) ∧
    (∀ (l : List (String × ProviderData)) (c : Confidence),
      calculateConfidenceScores l = some c → 0 ≤ c.overall ∧ c.overall ≤ 1) := by
  constructor
  · intro l1 l2 h1 hle
    have h01 : ¬l1.length = 0 := by omega
    have h02 : ¬l2.length = 0 := by omega
    rw [calculateConfidenceScores, calculateConfidenceScores]
    simp only [if_neg h01, if_neg h02]
    refine ⟨_, _, rfl, rfl, ?_⟩
    have hc : (l1.length : ℚ) ≤ (l2.length : ℚ) := Nat.cast_le.mpr hle
    exact min_le_min (mul_le_mul_of_nonneg_right hc (by norm_num)) le_rfl
  · intro l c h
    by_cases hl : l.length = 0
    · rw [calculateConfidenceScores] at h
      simp only [if_pos hl] at h
      exact Option.noConfusion h
    · rw [calculateConfidenceScores] at h
      simp only [if_neg hl, Option.some.injEq] at h
      rw [← h]
      constructor
      · exact le_min (by positivity) zero_le_one
      · exact min_le_right _ _

theorem C5_witness :
    ∃ c1 c2, calculateConfidenceScores [("a", {})] = some c1 ∧
      calculateConfidenceScores [("a", {}), ("b", {})] = some c2 ∧
      c1.overall ≤ c2.overall :=
  C5_confidence_monotone_bounded.1 [("a", {})] [("a", {}), ("b", {})]
    (by decide) (by decide)

/-- C6 as stated is false on the code: the collector guard
`if (provider.latitude)` is a truthiness test, so a supplied latitude of
0 is skipped; with latitudes 0 and 10 the aggregate is 10, not the mean
5 of the non-null values. -/
theorem C6_counterexample_zero_excluded :
    (aggregateProviderData
        [("p1", { latitude := some 0 }), ("p2", { latitude := some 10 })]).location.latitude =
      some 10 ∧ some (10 : ℚ) ≠ some (((0 : ℚ) + 10) / 2) := by
  constructor
  · rw [aggregated_latitude_eq]
    have h10 : ((10 : ℚ) == 0) = false := by
      rw [beq_eq_false_iff_ne]
      norm_num
    norm_num [specTruthyNumeric, specMean, List.filter, bne, h10]
  · norm_num

/-- C6 amended: latitude and longitude aggregate to the arithmetic mean
of the truthy supplied values — the non-null AND nonzero ones, a value
of 0 being dropped by the truthiness guard — and are absent when no
record supplies a truthy value. -/
theorem C6_mean_of_truthy_values :
    ∀ provs : List (String × ProviderData),
      (aggregateProviderData provs).location.latitude =
        specMean (specTruthyNumeric (fun d => d.latitude) provs) ∧
      (aggregateProviderData provs).location.longitude =
        specMean (specTruthyNumeric (fun d => d.longitude) provs) := by
  intro provs
  exact ⟨aggregated_latitude_eq provs, aggregated_longitude_eq provs⟩

/-- C7: cache behaviour.  The TTL is 24 hours; a lookup is absent when no
entry exists or the entry's age is at least the TTL; starting from no
cached entry, a first call dispatches the adapters and a second call
within the TTL (forceRefresh unset) returns the identical envelope with
zero adapter invocations and no state change; once the TTL has elapsed a
second call re-invokes the adapters (same positive call count as the
first) even without forceRefresh. -/
theorem C7_cache_ttl_semantics :
    cacheExpiry = 24 * 60 * 60 * 1000 ∧
    (∀ (cache : List (String × (Nat × Envelope))) (now : Nat) (ip : String),
      assocGet ip cache = none → getFromCache cache now ip = none) ∧
    (∀ (cache : List (String × (Nat × Envelope))) (now : Nat) (ip : String)
       (ts : Nat) (e : Envelope),
      assocGet ip cache = some (ts, e) → cacheExpiry ≤ now - ts →
      getFromCache cache now ip = none) ∧
    (∀ (st : GeoState) (env env' : AdapterEnv) (ip : String) (ti : Bool) (t0 t1 : Nat),
      isValidIP ip = true → getFromCache st.cache t0 ip = none →
      t1 - t0 < cacheExpiry →
      ∃ e : Envelope,
        (getComprehensiveIPInfo st t0 env ip
            { forceRefresh := false, includeBasic := true, includeDetailed := false,
              includeThreatIntel := ti }).result = .ok e ∧
        getComprehensiveIPInfo
            (getComprehensiveIPInfo st t0 env ip
              { forceRefresh := false, includeBasic := true, includeDetailed := false,
                includeThreatIntel := ti }).state t1 env' ip
            { forceRefresh := false, includeBasic := true, includeDetailed := false,
              includeThreatIntel := ti } =
          { result := .ok e,
            state := (getComprehensiveIPInfo st t0 env ip
              { forceRefresh := false, includeBasic := true, includeDetailed := false,
                includeThreatIntel := ti }).state,
            adapterCalls := 0 } ∧
        0 < (getComprehensiveIPInfo st t0 env ip
            { forceRefresh := false, includeBasic := true, includeDetailed := false,
              includeThreatIntel := ti }).adapterCalls) ∧
    (∀ (st : GeoState) (env env' : AdapterEnv) (ip : String) (ti : Bool) (t0 t1 : Nat),
      isValidIP ip = true → getFromCache st.cache t0 ip = none →
      cacheExpiry ≤ t1 - t0 →
      (getComprehensiveIPInfo
          (getComprehensiveIPInfo st t0 env ip
            { forceRefresh := false, includeBasic := true, includeDetailed := false,
              includeThreatIntel := ti }).state t1 env' ip
          { forceRefresh := false, includeBasic := true, includeDetailed := false,
            includeThreatIntel := ti }).adapterCalls =
        (getComprehensiveIPInfo st t0 env ip
          { forceRefresh := false, includeBasic := true, includeDetailed := false,
            includeThreatIntel := ti }).adapterCalls ∧
      0 < (getComprehensiveIPInfo st t0 env ip
          { forceRefresh := false, includeBasic := true, includeDetailed := false,
            includeThreatIntel := ti }).adapterCalls) := by
  refine ⟨rfl, ?_, ?_, ?_, ?_⟩
  · intro cache now ip h
    rw [getFromCache, h]
  · intro cache now ip ts e h hstale
    rw [getFromCache, h]
    simp [Nat.not_lt.mpr hstale]
  · intro st env env' ip ti t0 t1 hv hmiss hfresh
    rw [getComprehensiveIPInfo_miss hv hmiss, fetchPath_basic]
    refine ⟨buildEnvelope ip t0 (basicSettled env ti), rfl, ?_, ?_⟩
    · exact getComprehensiveIPInfo_cacheHit hv rfl
        (assocGet_assocSet ip (t0, buildEnvelope ip t0 (basicSettled env ti)) st.cache)
        hfresh
    · cases ti <;> norm_num
  · intro st env env' ip ti t0 t1 hv hmiss hstale
    rw [getComprehensiveIPInfo_miss hv hmiss, fetchPath_basic]
    have hstale' : getFromCache
        (cacheResults st.cache ip t0 (buildEnvelope ip t0 (basicSettled env ti))) t1 ip =
        none := by
      rw [getFromCache, cacheResults,
        assocGet_assocSet ip (t0, buildEnvelope ip t0 (basicSettled env ti)) st.cache]
      simp [Nat.not_lt.mpr hstale]
    rw [getComprehensiveIPInfo_miss hv hstale', fetchPath_basic]
    refine ⟨rfl, ?_⟩
    cases ti <;> norm_num

theorem C7_witness :
    ∃ e : Envelope,
      (getComprehensiveIPInfo GeoState.init 0 sampleOkEnv "8.8.8.8"
          { forceRefresh := false, includeBasic := true, includeDetailed := false,
            includeThreatIntel := false }).result = .ok e ∧
      getComprehensiveIPInfo
          (getComprehensiveIPInfo GeoState.init 0 sampleOkEnv "8.8.8.8"
            { forceRefresh := false, includeBasic := true, includeDetailed := false,
              includeThreatIntel := false }).state 1 sampleFailEnv "8.8.8.8"
          { forceRefresh := false, includeBasic := true, includeDetailed := false,
            includeThreatIntel := false } =
        { result := .ok e,
          state := (getComprehensiveIPInfo GeoState.init 0 sampleOkEnv "8.8.8.8"
            { forceRefresh := false, includeBasic := true, includeDetailed := false,
              includeThreatIntel := false }).state,
          adapterCalls := 0 } ∧
      0 < (getComprehensiveIPInfo GeoState.init 0 sampleOkEnv "8.8.8.8"
          { forceRefresh := false, includeBasic := true, includeDetailed := false,
            includeThreatIntel := false }).adapterCalls :=
  C7_cache_ttl_semantics.2.2.2.1 GeoState.init sampleOkEnv sampleFailEnv "8.8.8.8"
    false 0 1 (by decide) rfl (by decide)

end IPGeo
